import Mathlib

/-!
Verification of the `lpci` package initialization module
(`src/lpci/__init__.py`).

The module body consists of four statements:

  __version__ = "0.1.0"
  from .lpci import LPCI
  from .evaluate import EvaluateLPCI
  __all__ = ['LPCI', 'EvaluateLPCI']

We give a shallow embedding of the relevant fragment of Python module
initialization: a module namespace is an association list from names to
values; sibling modules are an association list from relative module names
to attribute tables; a `from M import a` statement fails when the module is
absent or does not provide the attribute, and otherwise binds the name;
plain assignments bind names.  The embedding also threads an external-input
record (environment variables, CLI arguments, file contents) and an opaque
"rest of the world" component, so that independence from external inputs and
the frame condition are meaningful statements rather than tautologies of the
model's shape, and a per-session module cache mirroring Python's
`sys.modules`, against which idempotence of repeated import is stated.
-/

namespace LPCIPkg

/-- Values that can appear in the module namespace: string constants
(`__version__`), lists of strings (`__all__`), or opaque objects imported
from sibling modules, drawn from a parameter type `V`. -/
inductive PyVal (V : Type) where
  | str (s : String)
  | strList (l : List String)
  | obj (v : V)
  deriving DecidableEq, Repr

/-- A module namespace: bindings in order, most recent first. -/
def NS (V : Type) : Type := List (String × PyVal V)

/-- Attribute table of a sibling module. -/
def ModTable (V : Type) : Type := List (String × V)

/-- The package's sibling-module environment: which relative modules exist,
and which attributes each provides. -/
def SiblingEnv (V : Type) : Type := List (String × ModTable V)

/-- Errors raised by import resolution: the referenced submodule is absent,
or it does not provide the requested name. -/
inductive ImportErr where
  | moduleNotFound (m : String)
  | cannotImportName (m a : String)
  deriving DecidableEq, Repr

/-- External inputs a Python module body could in principle read:
environment variables, CLI arguments, and file contents. -/
structure Extern where
  envVars : String → Option String
  cliArgs : List String
  fileContents : String → Option String

/-- The statement forms of the embedded fragment.  `readEnv` represents an
assignment from `os.environ` and is included so that dependence on external
inputs is expressible in the language; the module body below contains no
such statement. -/
inductive Stmt where
  | assignStr (name : String) (val : String)
  | assignStrList (name : String) (vals : List String)
  | importFrom (mod : String) (attr : String)
  | readEnv (name : String) (var : String)
  deriving DecidableEq, Repr

/-- Execution state: the module's own namespace, plus an opaque component
`world` standing for all state outside the module namespace. -/
structure PyState (V W : Type) where
  ns : NS V
  world : W

/-- One step of module-body execution. -/
def execStmt (env : SiblingEnv V) (ext : Extern) (st : Stmt)
    (s : PyState V W) : Except ImportErr (PyState V W) :=
  match st with
  | .assignStr n v => .ok { s with ns := (n, .str v) :: s.ns }
  | .assignStrList n vs => .ok { s with ns := (n, .strList vs) :: s.ns }
  | .importFrom m a =>
      match List.lookup m env with
      | none => .error (.moduleNotFound m)
      | some tbl =>
          match List.lookup a tbl with
          | none => .error (.cannotImportName m a)
          | some v => .ok { s with ns := (a, .obj v) :: s.ns }
  | .readEnv n var =>
      .ok { s with ns := (n, .str ((ext.envVars var).getD "")) :: s.ns }

/-- Execute a list of statements in order, stopping at the first error. -/
def execBody (env : SiblingEnv V) (ext : Extern) :
    List Stmt → PyState V W → Except ImportErr (PyState V W)
  | [], s => .ok s
  | st :: rest, s => (execStmt env ext st s).bind (execBody env ext rest)

/-- The body of `src/lpci/__init__.py`, statement by statement. -/
def moduleBody : List Stmt :=
  [ .assignStr "__version__" "0.1.0",
    .importFrom ".lpci" "LPCI",
    .importFrom ".evaluate" "EvaluateLPCI",
    .assignStrList "__all__" ["LPCI", "EvaluateLPCI"] ]

/-- Module initialization: run the module body in an empty namespace. -/
def initModule (env : SiblingEnv V) (ext : Extern) (w : W) :
    Except ImportErr (PyState V W) :=
  execBody env ext moduleBody ⟨[], w⟩

/-- The names a star-import (`from lpci import *`) binds: the contents of
`__all__` when it is defined as a list of strings, otherwise (Python's
default) every bound name that does not start with an underscore. -/
def starExports (ns : NS V) : List String :=
  match List.lookup "__all__" ns with
  | some (.strList l) => l
  | _ => (ns.map Prod.fst).filter (fun n => !n.startsWith "_")

/-- A session's import state for this package, mirroring Python's module
cache (`sys.modules`), together with a count of how many times the module
body has actually been executed in the session. -/
structure Session (V : Type) where
  cache : Option (NS V)
  initCount : Nat

/-- Importing the package in a session: if the module is already cached,
return it without re-executing the body; otherwise run initialization and
cache the resulting namespace. -/
def importPackage (env : SiblingEnv V) (ext : Extern) (s : Session V) :
    Except ImportErr (NS V × Session V) :=
  match s.cache with
  | some m => .ok (m, s)
  | none =>
      match initModule (W := Unit) env ext () with
      | .error e => .error e
      | .ok st => .ok (st.ns, ⟨some st.ns, s.initCount + 1⟩)

/-- Characterization of `initModule`: its result is fully determined by the
four sibling-module lookups the body performs, and in the successful case
the namespace holds exactly the four bindings of the module body. -/
theorem initModule_spec (env : SiblingEnv V) (ext : Extern) (w : W) :
    initModule env ext w =
      match List.lookup ".lpci" env with
      | none => .error (.moduleNotFound ".lpci")
      | some t1 =>
        match List.lookup "LPCI" t1 with
        | none => .error (.cannotImportName ".lpci" "LPCI")
        | some v1 =>
          match List.lookup ".evaluate" env with
          | none => .error (.moduleNotFound ".evaluate")
          | some t2 =>
            match List.lookup "EvaluateLPCI" t2 with
            | none => .error (.cannotImportName ".evaluate" "EvaluateLPCI")
            | some v2 =>
                .ok ⟨[("__all__", .strList ["LPCI", "EvaluateLPCI"]),
                      ("EvaluateLPCI", .obj v2),
                      ("LPCI", .obj v1),
                      ("__version__", .str "0.1.0")], w⟩ := by
  cases h1 : List.lookup ".lpci" env with
  | none => simp [initModule, moduleBody, execBody, execStmt, Except.bind, h1]
  | some t1 =>
    cases h2 : List.lookup "LPCI" t1 with
    | none => simp [initModule, moduleBody, execBody, execStmt, Except.bind, h1, h2]
    | some v1 =>
      cases h3 : List.lookup ".evaluate" env with
      | none => simp [initModule, moduleBody, execBody, execStmt, Except.bind, h1, h2, h3]
      | some t2 =>
        cases h4 : List.lookup "EvaluateLPCI" t2 with
        | none => simp [initModule, moduleBody, execBody, execStmt, Except.bind, h1, h2, h3, h4]
        | some v2 => simp [initModule, moduleBody, execBody, execStmt, Except.bind, h1, h2, h3, h4]

/-- Successful initialization, characterized: it succeeds exactly when both
siblings resolve and provide the requested names, and then the final state
is the four-binding namespace with the world untouched. -/
theorem initModule_ok_iff (env : SiblingEnv V) (ext : Extern) (w : W)
    (st : PyState V W) :
    initModule env ext w = .ok st ↔
      ∃ t1 v1 t2 v2,
        List.lookup ".lpci" env = some t1 ∧
        List.lookup "LPCI" t1 = some v1 ∧
        List.lookup ".evaluate" env = some t2 ∧
        List.lookup "EvaluateLPCI" t2 = some v2 ∧
        st = ⟨[("__all__", .strList ["LPCI", "EvaluateLPCI"]),
               ("EvaluateLPCI", .obj v2),
               ("LPCI", .obj v1),
               ("__version__", .str "0.1.0")], w⟩ := by
  rw [initModule_spec]
  cases h1 : List.lookup ".lpci" env with
  | none => simp [h1]
  | some t1 =>
    cases h2 : List.lookup "LPCI" t1 with
    | none => simp [h1, h2]
    | some v1 =>
      cases h3 : List.lookup ".evaluate" env with
      | none => simp [h1, h2, h3]
      | some t2 =>
        cases h4 : List.lookup "EvaluateLPCI" t2 with
        | none => simp [h1, h2, h3, h4]
        | some v2 =>
          simp only [h1, h2, h3, h4, Except.ok.injEq, Option.some.injEq]
          constructor
          · intro h
            exact ⟨t1, v1, t2, v2, rfl, h2, rfl, h4, h.symm⟩
          · rintro ⟨t1', v1', t2', v2', ht1, hv1, ht2, hv2, hst⟩
            cases ht1
            cases ht2
            rw [h2] at hv1
            rw [h4] at hv2
            cases Option.some.inj hv1
            cases Option.some.inj hv2
            rw [hst]

/-- A concrete sibling environment for witnesses: `.lpci` provides `LPCI`
and `.evaluate` provides `EvaluateLPCI`. -/
def envW : SiblingEnv Nat :=
  [(".lpci", [("LPCI", 0)]), (".evaluate", [("EvaluateLPCI", 1)])]

/-- Concrete external inputs for witnesses: empty environment, no CLI
arguments, no files. -/
def extW : Extern := ⟨fun _ => none, [], fun _ => none⟩

/-- The namespace produced by initialization over `envW`. -/
def nsW : NS Nat :=
  [("__all__", .strList ["LPCI", "EvaluateLPCI"]), ("EvaluateLPCI", .obj 1),
   ("LPCI", .obj 0), ("__version__", .str "0.1.0")]

/-- The full state produced by initialization over `envW` with world `7`. -/
def stW : PyState Nat Nat := ⟨nsW, 7⟩

/-- C1: after module initialization completes successfully, the export list
`__all__` is bound to exactly the two names `LPCI` and `EvaluateLPCI` — no
more, no fewer. -/
theorem c1_export_list_exact (env : SiblingEnv V) (ext : Extern) (w : W)
    (st : PyState V W) (h : initModule env ext w = .ok st) :
    List.lookup "__all__" st.ns = some (.strList ["LPCI", "EvaluateLPCI"]) := by
  obtain ⟨t1, v1, t2, v2, -, -, -, -, rfl⟩ := (initModule_ok_iff env ext w st).mp h
  rfl

/-- Witness for C1 at the concrete sibling environment `envW`. -/
theorem c1_export_list_exact_witness :
    List.lookup "__all__" stW.ns = some (.strList ["LPCI", "EvaluateLPCI"]) :=
  c1_export_list_exact envW extW 7 stW rfl

/-- C2: initialization binds `LPCI` to the object named `LPCI` provided by
the sibling module `.lpci`, binds `EvaluateLPCI` to the object named
`EvaluateLPCI` provided by the sibling module `.evaluate`, and the export
list re-exports exactly these two names. -/
theorem c2_bindings_from_siblings (env : SiblingEnv V) (ext : Extern) (w : W)
    (st : PyState V W) (h : initModule env ext w = .ok st) :
    ∃ t1 v1 t2 v2,
      List.lookup ".lpci" env = some t1 ∧
      List.lookup "LPCI" t1 = some v1 ∧
      List.lookup ".evaluate" env = some t2 ∧
      List.lookup "EvaluateLPCI" t2 = some v2 ∧
      List.lookup "LPCI" st.ns = some (.obj v1) ∧
      List.lookup "EvaluateLPCI" st.ns = some (.obj v2) ∧
      List.lookup "__all__" st.ns = some (.strList ["LPCI", "EvaluateLPCI"]) := by
  obtain ⟨t1, v1, t2, v2, h1, h2, h3, h4, rfl⟩ := (initModule_ok_iff env ext w st).mp h
  exact ⟨t1, v1, t2, v2, h1, h2, h3, h4, rfl, rfl, rfl⟩

/-- Witness for C2 at the concrete sibling environment `envW`. -/
theorem c2_bindings_from_siblings_witness :
    ∃ t1 v1 t2 v2,
      List.lookup ".lpci" envW = some t1 ∧
      List.lookup "LPCI" t1 = some v1 ∧
      List.lookup ".evaluate" envW = some t2 ∧
      List.lookup "EvaluateLPCI" t2 = some v2 ∧
      List.lookup "LPCI" stW.ns = some (.obj v1) ∧
      List.lookup "EvaluateLPCI" stW.ns = some (.obj v2) ∧
      List.lookup "__all__" stW.ns = some (.strList ["LPCI", "EvaluateLPCI"]) :=
  c2_bindings_from_siblings envW extW 7 stW rfl

/-- C3: initialization fails with an import-resolution error iff a
referenced submodule is absent or does not provide the requested name; and
it succeeds exactly when `.lpci` provides `LPCI` and `.evaluate` provides
`EvaluateLPCI`. -/
theorem c3_fail_iff (env : SiblingEnv V) (ext : Extern) (w : W) :
    ((∃ e, initModule env ext w = .error e) ↔
        List.lookup ".lpci" env = none ∨
        (∃ t1, List.lookup ".lpci" env = some t1 ∧
          List.lookup "LPCI" t1 = none) ∨
        List.lookup ".evaluate" env = none ∨
        (∃ t2, List.lookup ".evaluate" env = some t2 ∧
          List.lookup "EvaluateLPCI" t2 = none)) ∧
    ((∃ st, initModule env ext w = .ok st) ↔
        (∃ t1 v1, List.lookup ".lpci" env = some t1 ∧
          List.lookup "LPCI" t1 = some v1) ∧
        (∃ t2 v2, List.lookup ".evaluate" env = some t2 ∧
          List.lookup "EvaluateLPCI" t2 = some v2)) := by
  constructor
  · constructor
    · rintro ⟨e, he⟩
      cases h1 : List.lookup ".lpci" env with
      | none => exact Or.inl rfl
      | some t1 =>
        cases h2 : List.lookup "LPCI" t1 with
        | none => exact Or.inr (Or.inl ⟨t1, rfl, h2⟩)
        | some v1 =>
          cases h3 : List.lookup ".evaluate" env with
          | none => exact Or.inr (Or.inr (Or.inl rfl))
          | some t2 =>
            cases h4 : List.lookup "EvaluateLPCI" t2 with
            | none => exact Or.inr (Or.inr (Or.inr ⟨t2, rfl, h4⟩))
            | some v2 => simp [initModule_spec, h1, h2, h3, h4] at he
    · intro hfail
      rw [initModule_spec]
      rcases hfail with h1 | ⟨t1, h1, h2⟩ | h3 | ⟨t2, h3, h4⟩
      · exact ⟨.moduleNotFound ".lpci", by simp [h1]⟩
      · exact ⟨.cannotImportName ".lpci" "LPCI", by simp [h1, h2]⟩
      · cases ha : List.lookup ".lpci" env with
        | none => exact ⟨.moduleNotFound ".lpci", by simp [ha]⟩
        | some t1 =>
          cases hb : List.lookup "LPCI" t1 with
          | none => exact ⟨.cannotImportName ".lpci" "LPCI", by simp [ha, hb]⟩
          | some v1 =>
              exact ⟨.moduleNotFound ".evaluate", by simp [ha, hb, h3]⟩
      · cases ha : List.lookup ".lpci" env with
        | none => exact ⟨.moduleNotFound ".lpci", by simp [ha]⟩
        | some t1 =>
          cases hb : List.lookup "LPCI" t1 with
          | none => exact ⟨.cannotImportName ".lpci" "LPCI", by simp [ha, hb]⟩
          | some v1 =>
              exact ⟨.cannotImportName ".evaluate" "EvaluateLPCI",
                by simp [ha, hb, h3, h4]⟩
  · constructor
    · rintro ⟨st, hst⟩
      obtain ⟨t1, v1, t2, v2, h1, h2, h3, h4, -⟩ :=
        (initModule_ok_iff env ext w st).mp hst
      exact ⟨⟨t1, v1, h1, h2⟩, ⟨t2, v2, h3, h4⟩⟩
    · rintro ⟨⟨t1, v1, h1, h2⟩, ⟨t2, v2, h3, h4⟩⟩
      exact ⟨_, (initModule_ok_iff env ext w _).mpr
        ⟨t1, v1, t2, v2, h1, h2, h3, h4, rfl⟩⟩

/-- C4: after initialization the version string `__version__` is defined
and non-empty. -/
theorem c4_version_defined_nonempty (env : SiblingEnv V) (ext : Extern)
    (w : W) (st : PyState V W) (h : initModule env ext w = .ok st) :
    ∃ s, List.lookup "__version__" st.ns = some (.str s) ∧ s ≠ "" := by
  obtain ⟨t1, v1, t2, v2, -, -, -, -, rfl⟩ := (initModule_ok_iff env ext w st).mp h
  exact ⟨"0.1.0", rfl, by decide⟩

/-- Witness for C4 at the concrete sibling environment `envW`. -/
theorem c4_version_defined_nonempty_witness :
    ∃ s, List.lookup "__version__" stW.ns = some (.str s) ∧ s ≠ "" :=
  c4_version_defined_nonempty envW extW 7 stW rfl

/-- C5: a successful initialization changes only the module's own
namespace — binding exactly `__version__`, `LPCI`, `EvaluateLPCI` and
`__all__` — and all state outside the module namespace is unchanged. -/
theorem c5_frame (env : SiblingEnv V) (ext : Extern) (w : W)
    (st : PyState V W) (h : initModule env ext w = .ok st) :
    st.ns.map Prod.fst = ["__all__", "EvaluateLPCI", "LPCI", "__version__"] ∧
    st.world = w := by
  obtain ⟨t1, v1, t2, v2, -, -, -, -, rfl⟩ := (initModule_ok_iff env ext w st).mp h
  exact ⟨rfl, rfl⟩

/-- Witness for C5 at the concrete sibling environment `envW` and world `7`. -/
theorem c5_frame_witness :
    stW.ns.map Prod.fst = ["__all__", "EvaluateLPCI", "LPCI", "__version__"] ∧
    stW.world = 7 :=
  c5_frame envW extW 7 stW rfl

/-- C6: package import is one-time and idempotent: after an import returns
a module, importing again yields the same module with unchanged bindings
and an unchanged session, and the module body executes at most once across
the pair. -/
theorem c6_import_idempotent (env : SiblingEnv V) (ext : Extern)
    (s : Session V) (m : NS V) (s' : Session V)
    (h : importPackage env ext s = .ok (m, s')) :
    importPackage env ext s' = .ok (m, s') ∧
    s'.initCount ≤ s.initCount + 1 := by
  obtain ⟨cache, count⟩ := s
  cases cache with
  | some c =>
      simp only [importPackage] at h
      injection h with h2
      injection h2 with hm hs
      subst hm
      subst hs
      exact ⟨rfl, Nat.le_succ count⟩
  | none =>
      simp only [importPackage] at h
      cases hi : initModule (W := Unit) env ext () with
      | error e =>
          rw [hi] at h
          cases h
      | ok st =>
          rw [hi] at h
          injection h with h2
          injection h2 with hm hs
          subst hm
          subst hs
          exact ⟨rfl, Nat.le_refl _⟩

/-- Witness for C6: a first import from an empty session followed by a
second import of the resulting session. -/
theorem c6_import_idempotent_witness :
    importPackage envW extW (⟨some nsW, 1⟩ : Session Nat) =
      .ok (nsW, (⟨some nsW, 1⟩ : Session Nat)) ∧
    (⟨some nsW, 1⟩ : Session Nat).initCount ≤
      (⟨none, 0⟩ : Session Nat).initCount + 1 :=
  c6_import_idempotent envW extW ⟨none, 0⟩ nsW ⟨some nsW, 1⟩ rfl

/-- C7: module initialization is deterministic and independent of
environment variables, CLI input, and file contents: two runs over the same
sibling-module contents produce identical results whatever the external
inputs. -/
theorem c7_extern_independent (env : SiblingEnv V) (ext1 ext2 : Extern)
    (w : W) :
    initModule env ext1 w = initModule env ext2 w := by
  rw [initModule_spec env ext1 w, initModule_spec env ext2 w]

/-- C8: export-list soundness — after a successful initialization, every
name a star-import takes from `__all__` is bound in the module namespace. -/
theorem c8_star_exports_bound (env : SiblingEnv V) (ext : Extern) (w : W)
    (st : PyState V W) (h : initModule env ext w = .ok st) :
    ∀ n ∈ starExports st.ns, (List.lookup n st.ns).isSome = true := by
  obtain ⟨t1, v1, t2, v2, -, -, -, -, rfl⟩ := (initModule_ok_iff env ext w st).mp h
  intro n hn
  cases hn with
  | head => rfl
  | tail _ h2 =>
    cases h2 with
    | head => rfl
    | tail _ h3 => cases h3

/-- Witness for C8: the exported name `LPCI` is bound after initialization
over `envW`. -/
theorem c8_star_exports_bound_witness :
    (List.lookup "LPCI" stW.ns).isSome = true :=
  c8_star_exports_bound envW extW 7 stW rfl "LPCI" (by decide)

/-- C9: after initialization, `__version__` is bound to exactly the string
"0.1.0". -/
theorem c9_version_exact (env : SiblingEnv V) (ext : Extern) (w : W)
    (st : PyState V W) (h : initModule env ext w = .ok st) :
    List.lookup "__version__" st.ns = some (.str "0.1.0") := by
  obtain ⟨t1, v1, t2, v2, -, -, -, -, rfl⟩ := (initModule_ok_iff env ext w st).mp h
  rfl

/-- Witness for C9 at the concrete sibling environment `envW`. -/
theorem c9_version_exact_witness :
    List.lookup "__version__" stW.ns = some (.str "0.1.0") :=
  c9_version_exact envW extW 7 stW rfl

/-- C10: `__version__` is not among the names a star-import binds; the
star-exports are exactly `LPCI` and `EvaluateLPCI`. -/
theorem c10_version_not_star_exported (env : SiblingEnv V) (ext : Extern)
    (w : W) (st : PyState V W) (h : initModule env ext w = .ok st) :
    "__version__" ∉ starExports st.ns ∧
    starExports st.ns = ["LPCI", "EvaluateLPCI"] := by
  obtain ⟨t1, v1, t2, v2, -, -, -, -, rfl⟩ := (initModule_ok_iff env ext w st).mp h
  refine ⟨?_, rfl⟩
  show "__version__" ∉ (["LPCI", "EvaluateLPCI"] : List String)
  decide

/-- Witness for C10 at the concrete sibling environment `envW`. -/
theorem c10_version_not_star_exported_witness :
    "__version__" ∉ starExports stW.ns ∧
    starExports stW.ns = ["LPCI", "EvaluateLPCI"] :=
  c10_version_not_star_exported envW extW 7 stW rfl

end LPCIPkg
